import Mathlib

/-!
A shallow embedding of the Zoopla scraping script (`src/zoopla_scraping.py`) and
proofs about its extraction, normalization and orchestration behaviour.

Conventions used throughout:
* Python dictionaries are insertion-ordered association lists (`Assoc`).
* Python string operations (`split`, `replace`, `strip`) are re-implemented on
  `List Char` with structural recursion so that every definition evaluates by
  kernel reduction.
* Python exceptions are an explicit error type (`PyError`); code that can raise
  returns `Except PyError _`.
* Network I/O is an oracle argument (a function supplying response bodies);
  everything the script computes from a response is embedded from the source.
-/

set_option autoImplicit false

namespace Zoopla

/-- The Python exception kinds the script can raise or catch. -/
inductive PyError where
  | nameError
  | attributeError
  | indexError
  | valueError
  | keyError
  | timeout
  | connectionError
deriving DecidableEq

/-- A cell value in a record / dataframe.  Python floats are modelled as `ℚ`
(the script only ever parses decimal literals); `absent` models `np.nan`. -/
inductive Value where
  | str : String → Value
  | int : Int → Value
  | float : Rat → Value
  | absent : Value
deriving DecidableEq

/-- Console / side-effect events emitted by the script. -/
inductive Event where
  | logStatus
  | logError (e : PyError)
  | logUrl (u : String)
  | sleep (seconds : Nat)
  | printErr (e : PyError)
  | notify (e : PyError)
deriving DecidableEq

/-- An insertion-ordered association list modelling a Python `dict`:
`set` overwrites an existing key in place, otherwise appends at the end. -/
abbrev Assoc (β : Type) : Type := List (String × β)

namespace Assoc

/-- `d[k] = v` on a Python dict. -/
def set {β : Type} : Assoc β → String → β → Assoc β
  | [], k, v => [(k, v)]
  | (k', v') :: rest, k, v =>
    if k' = k then (k, v) :: rest else (k', v') :: set rest k v

/-- `d.get(k)` on a Python dict. -/
def find? {β : Type} : Assoc β → String → Option β
  | [], _ => none
  | (k', v') :: rest, k => if k' = k then some v' else find? rest k

/-- The keys, in insertion order. -/
def keys {β : Type} (d : Assoc β) : List String := d.map Prod.fst

/-- `d.values()` on a Python dict. -/
def values {β : Type} (d : Assoc β) : List β := d.map Prod.snd

theorem find?_set {β : Type} (d : Assoc β) (k k' : String) (v : β) :
    (d.set k v).find? k' = if k' = k then some v else d.find? k' := by
  induction d with
  | nil =>
    by_cases h : k = k'
    · subst h; simp [set, find?]
    · simp [set, find?, h, Ne.symm h]
  | cons p rest ih =>
    obtain ⟨a, b⟩ := p
    by_cases hak : a = k
    · subst hak
      by_cases h : a = k'
      · subst h; simp [set, find?]
      · simp [set, find?, h, Ne.symm h]
    · by_cases hk' : a = k'
      · subst hk'
        simp [set, find?, hak, Ne.symm hak]
      · simp [set, find?, hak, hk', ih]

theorem mem_keys_set {β : Type} (d : Assoc β) (k x : String) (v : β)
    (h : x ∈ (d.set k v).keys) : x = k ∨ x ∈ d.keys := by
  induction d with
  | nil => simpa [set, keys] using h
  | cons p rest ih =>
    obtain ⟨a, b⟩ := p
    by_cases hak : a = k
    · subst hak
      simpa [set, keys] using h
    · simp only [set, hak, if_false, keys, List.map_cons, List.mem_cons] at h
      rcases h with h | h
      · exact Or.inr (by simp [keys, h])
      · rcases ih h with h' | h'
        · exact Or.inl h'
        · exact Or.inr (by simp [keys]; right; simpa [keys] using h')

theorem keys_set_nodup {β : Type} (d : Assoc β) (k : String) (v : β)
    (h : d.keys.Nodup) : ((d.set k v).keys).Nodup := by
  induction d with
  | nil => simp [set, keys]
  | cons p rest ih =>
    obtain ⟨a, b⟩ := p
    simp only [keys, List.map_cons, List.nodup_cons] at h
    by_cases hak : a = k
    · subst hak
      simpa [set, keys, List.nodup_cons] using h
    · have htail := ih h.2
      simp only [set, hak, if_false, keys, List.map_cons, List.nodup_cons]
      refine ⟨?_, htail⟩
      intro hmem
      rcases mem_keys_set rest k a v hmem with h' | h'
      · exact hak h'
      · exact h.1 (by simpa [keys] using h')

end Assoc

/-- `dict1` / one row of the dataframe: a dict from column name to cell value. -/
abbrev Dict : Type := Assoc Value

/-- One row of the final table (same representation as `Dict`). -/
abbrev Row : Type := Dict

/-- `dict2`: the run-wide accumulator mapping listing id to its record. -/
abbrev Dict2 : Type := Assoc Dict

/-! ### Python string primitives, re-implemented structurally -/

/-- Numeric value of a digit string (most significant first). -/
def digitsVal (cs : List Char) : Nat :=
  cs.foldl (fun n c => 10 * n + (c.toNat - 48)) 0

/-- `cs` is a non-empty string of ASCII digits. -/
def isDigits (cs : List Char) : Bool :=
  !cs.isEmpty && cs.all Char.isDigit

/-- Split at the first `'.'`: integer part, and `some` fractional part when a
dot is present. -/
def splitDot (cs : List Char) : List Char × Option (List Char) :=
  match cs.dropWhile (fun c => c != '.') with
  | [] => (cs.takeWhile (fun c => c != '.'), none)
  | _ :: fr => (cs.takeWhile (fun c => c != '.'), some fr)

/-- Unsigned part of Python `float()` on a decimal literal: digits with an
optional fractional part, at least one digit overall. -/
def parsePos? (cs : List Char) : Option Rat :=
  match splitDot cs with
  | (ip, none) => if isDigits ip then some ((digitsVal ip : Rat)) else none
  | (ip, some fr) =>
    if (!(ip.isEmpty && fr.isEmpty)) && ip.all Char.isDigit && fr.all Char.isDigit then
      some ((digitsVal ip : Rat) + (digitsVal fr : Rat) / (10 : Rat) ^ fr.length)
    else none

/-- Python `float()` on the characters of a decimal literal: optional sign,
then digits with an optional fractional part. -/
def parseDecimalL? : List Char → Option Rat
  | [] => none
  | c :: rest =>
    if c = '-' then (parsePos? rest).map (fun q => -q)
    else if c = '+' then parsePos? rest
    else parsePos? (c :: rest)

/-- Python `float()` on a decimal literal (optional sign, digits, optional
fractional part).  Exponents and `inf`/`nan` spellings are not modelled: the
script only ever feeds it decimal coordinate/price literals. -/
def parseDecimal? (s : String) : Option Rat := parseDecimalL? s.data

/-- Python `str.strip()`. -/
def pyStrip (s : String) : String :=
  String.mk (((s.data.dropWhile Char.isWhitespace).reverse.dropWhile Char.isWhitespace).reverse)

/-- Python `int()` on a string: optional surrounding whitespace, optional sign,
digits only (a decimal point is a `ValueError`). -/
def parseInt? (s : String) : Option Int :=
  match (pyStrip s).data with
  | '-' :: rest => if isDigits rest then some (-(digitsVal rest : Int)) else none
  | '+' :: rest => if isDigits rest then some ((digitsVal rest : Int)) else none
  | cs => if isDigits cs then some ((digitsVal cs : Int)) else none

/-- Truncation toward zero, as Python `int(float)` / pandas `astype('int')`. -/
def ratTrunc (q : Rat) : Int := q.num.tdiv (q.den : Int)

/-- Worker for `pySplit`; `fuel` bounds the recursion (the callers pass the
length of the string plus one, which is always sufficient). -/
def splitOnAuxC (sep : List Char) : Nat → List Char → List Char → List (List Char)
  | 0, acc, s => [acc.reverse ++ s]
  | _ + 1, acc, [] => [acc.reverse]
  | fuel + 1, acc, c :: rest =>
    if sep.isPrefixOf (c :: rest) then
      acc.reverse :: splitOnAuxC sep fuel [] (List.drop (sep.length - 1) rest)
    else
      splitOnAuxC sep fuel (c :: acc) rest

/-- Python `s.split(sep)` for a non-empty separator: the list of segments
between non-overlapping leftmost occurrences of `sep` (the script never calls
`split` with an empty separator, which would raise in Python). -/
def pySplit (s sep : String) : List String :=
  if sep.data.isEmpty then [s]
  else (splitOnAuxC sep.data (s.data.length + 1) [] s.data).map String.mk

/-- `s.split(marker)[1]`: `none` models the `IndexError` raised when the marker
does not occur in `s`. -/
def segAfter? (text marker : String) : Option String :=
  (pySplit text marker).get? 1

/-- `s.split(sep)[0]` (always defined: `split` returns a non-empty list). -/
def firstSeg (s sep : String) : String :=
  (pySplit s sep).headD ""

/-- Worker for `pyReplace` when the pattern is non-empty; `fuel` bounds the
recursion (callers pass the length of the string plus one). -/
def pyReplaceAux (old new : List Char) : Nat → List Char → List Char
  | 0, s => s
  | _ + 1, [] => []
  | fuel + 1, c :: rest =>
    if old.isPrefixOf (c :: rest) then
      new ++ pyReplaceAux old new fuel (List.drop (old.length - 1) rest)
    else
      c :: pyReplaceAux old new fuel rest

/-- Python `s.replace(old, new)` with an empty `old`: `new` is interleaved
before every character and at the end. -/
def pyReplaceEmpty (new : List Char) : List Char → List Char
  | [] => new
  | c :: rest => new ++ c :: pyReplaceEmpty new rest

/-- Python `s.replace(old, new)`: all non-overlapping leftmost occurrences. -/
def pyReplaceS (s old new : String) : String :=
  if old.data.isEmpty then String.mk (pyReplaceEmpty new.data s.data)
  else String.mk (pyReplaceAux old.data new.data (s.data.length + 1) s.data)

/-! ### Data model -/

/-- A summary listing entry from a search results page (the fields of the
upstream `listings.regular` items that the script reads): `listingUris.detail`
(`detailPath`), `features` as `(iconId, content)` pairs, `price`, `address`
and `listingId`. -/
structure ListingSummary where
  listingId : String
  price : String
  address : String
  features : List (String × String)
  detailPath : String
deriving DecidableEq

/-- A fetched detail page.  `text` is the raw response body consumed by the
split-based extractors.  `featuresSection?` models the BeautifulSoup lookup
`find('section', data-testid="page_features_section")` (an external HTML
library call): `some` holds that section's text when the section exists, and
`none` models `find` returning `None`, whence `.text` raises
`AttributeError`. -/
structure DetailPayload where
  text : String
  featuresSection? : Option String
deriving DecidableEq

/-! ### Field extraction (`parse_listing`, lines 122-157) -/

/-- `response.text.split('"latitude": ')[1].split(',')[0].strip()`. -/
def latStr? (text : String) : Option String :=
  (segAfter? text "\"latitude\": ").map (fun seg => pyStrip (firstSeg seg ","))

/-- `response.text.split('"longitude": ')[1].split('\n')[0].strip()`. -/
def lonStr? (text : String) : Option String :=
  (segAfter? text "\"longitude\": ").map (fun seg => pyStrip (firstSeg seg "\n"))

/-- The geo `try` block, up to the two `float()` calls: `none` exactly when a
marker is missing or a value fails to parse as a float (the `except` path). -/
def geoPair? (text : String) : Option (Rat × Rat) :=
  match latStr? text with
  | none => none
  | some ls =>
    match parseDecimal? ls with
    | none => none
    | some la =>
      match lonStr? text with
      | none => none
      | some los =>
        match parseDecimal? los with
        | none => none
        | some lo => some (la, lo)

/-- Lines 132-137: latitude and longitude cells; on absence or parse failure
both resolve to the empty string (the script's `lat = ''; lon = ''`). -/
def extractGeo (text : String) : Value × Value :=
  match geoPair? text with
  | some (la, lo) => (Value.float la, Value.float lo)
  | none => (Value.str "", Value.str "")

/-- `response.text.split('"incode":"')[1].split('"')[0]`. -/
def incode? (text : String) : Option String :=
  (segAfter? text "\"incode\":\"").map (fun seg => firstSeg seg "\"")

/-- `response.text.split('"outcode":"')[1].split('"')[0]`. -/
def outcode? (text : String) : Option String :=
  (segAfter? text "\"outcode\":\"").map (fun seg => firstSeg seg "\"")

/-- Lines 124-131: `(postcode, postcode_district, outcode)`.  When both markers
are present the full postcode is `outcode + ' ' + district`; when either is
missing the `except` path resets all three to the empty string. -/
def extractPostcode (text : String) : String × String × String :=
  match incode? text, outcode? text with
  | some district, some oc => (oc ++ " " ++ district, district, oc)
  | _, _ => ("", "", "")

/-- Lines 138-141: `int(response.text.split('"acornType":')[1].split(',')[0])`,
with `''` on any failure. -/
def extractAcorn (text : String) : Value :=
  match segAfter? text "\"acornType\":" with
  | none => Value.str ""
  | some seg =>
    match parseInt? (firstSeg seg ",") with
    | none => Value.str ""
    | some n => Value.int n

/-- Line 145: `response.text.split('"propertyType":"')[1].split('"')[0]`;
`none` models the uncaught `IndexError` when the marker is missing. -/
def propertyType? (text : String) : Option String :=
  (segAfter? text "\"propertyType\":\"").map (fun seg => firstSeg seg "\"")

/-- Lines 95-100 of `request_listing_data`: the initial `dict1` with the `url`
key and one key per feature tag (`dict1[i['iconId']] = i['content']`). -/
def initDict (l : ListingSummary) : Dict :=
  l.features.foldl (fun d f => d.set f.1 (Value.str f.2))
    (Assoc.set ([] : Dict) "url" (Value.str ("https://www.zoopla.co.uk" ++ l.detailPath)))

/-- Lines 146-155: the field assignments into `dict1`, in source order. -/
def assembleRecord (resp : DetailPayload) (dict1 : Dict) (listing : ListingSummary)
    (sec ptype : String) : Dict :=
  let pco := extractPostcode resp.text
  let geo := extractGeo resp.text
  ((((((((((dict1.set "property_type" (Value.str ptype)
    ).set "postcode" (Value.str pco.1)
    ).set "outcode" (Value.str pco.2.2)
    ).set "postcode_district" (Value.str pco.2.1)
    ).set "acorn_type" (extractAcorn resp.text)
    ).set "display_address" (Value.str (pyReplaceS listing.address pco.1 pco.2.2))
    ).set "price" (Value.str listing.price)
    ).set "latitude" geo.1
    ).set "longitude" geo.2
    ).set "description" (Value.str (pyStrip sec)))

/-- `parse_listing` (lines 122-157), as the record it stores into `dict2`.
The tolerant `try` blocks are inside the extractors; the two hard failure
points are the description section lookup (line 144, `AttributeError` when the
section is absent) and the `propertyType` split (line 145, `IndexError`). -/
def parse_listing (resp : DetailPayload) (dict1 : Dict) (listing : ListingSummary) :
    Except PyError Dict :=
  match resp.featuresSection? with
  | none => .error PyError.attributeError
  | some sec =>
    match propertyType? resp.text with
    | none => .error PyError.indexError
    | some ptype => .ok (assembleRecord resp dict1 listing sec ptype)

/-! ### Dataset builder (`clean_property_data`, lines 160-173) -/

/-- `df.price.replace("[£,]", "", regex=True)`: every `£` and `,` removed. -/
def stripMoney (s : String) : String :=
  String.mk (s.data.filter (fun c => c != '£' && c != ','))

/-- Line 164 on one string cell: strip `[£,]`, parse as a number, coerce an
unparseable value to 0, truncate to an integer. -/
def normalizePrice (s : String) : Int :=
  match parseDecimal? (stripMoney s) with
  | some q => ratTrunc q
  | none => 0

/-- Line 164 on an arbitrary cell (`pd.to_numeric(..., errors='coerce')`
passes numbers through; `.fillna(0)` turns `NaN` into 0; `.astype('int')`
truncates). -/
def normalizePriceCell : Value → Value
  | Value.str s => Value.int (normalizePrice s)
  | Value.int n => Value.int n
  | Value.float q => Value.int (ratTrunc q)
  | Value.absent => Value.int 0

/-- Line 166: `rename(columns={'chair': 'num_recepts','bed':'num_beds','bath':'num_baths'})`. -/
def renameKey (k : String) : String :=
  if k = "chair" then "num_recepts"
  else if k = "bed" then "num_beds"
  else if k = "bath" then "num_baths"
  else k

/-- Lines 163-167 applied to one row: the `listing_condition` constant, price
normalization, the `listing_id = np.NaN` column, the column renames, and
`replace('', np.nan)`. -/
def cleanRow1 (r : Row) : Row :=
  let r1 := r.set "listing_condition" (Value.str "pre-owned")
  let r2 := r1.set "price" (normalizePriceCell ((r1.find? "price").getD Value.absent))
  let r3 := r2.set "listing_id" Value.absent
  let r4 := r3.map (fun p => (renameKey p.1, p.2))
  r4.map (fun p => (p.1, if p.2 = Value.str "" then Value.absent else p.2))

/-- The fixed, ordered column list of line 168-169. -/
def finalColumns : List String :=
  ["property_type", "price", "postcode_district", "num_baths", "postcode", "outcode",
   "acorn_type", "display_address", "num_recepts", "num_beds", "url", "listing_condition",
   "latitude", "longitude", "description"]

/-- The union of the column labels of all rows, in first-appearance order (the
column set of the concatenated dataframe; entries a row lacks are `NaN`). -/
def unionKeys (rows : List Row) : List String :=
  rows.foldl (fun acc r => acc ++ (r.keys.filter (fun k => !(acc.contains k)))) []

/-- `df[cols]` on one row: missing entries become `NaN`. -/
def project (cols : List String) (r : Row) : Row :=
  cols.map (fun c => (c, (r.find? c).getD Value.absent))

/-- `df.drop_duplicates()`: keep the first of each group of equal rows. -/
def dedupKeepFirst (seen : List Row) : List Row → List Row
  | [] => []
  | r :: rest =>
    if r ∈ seen then dedupKeepFirst seen rest
    else r :: dedupKeepFirst (r :: seen) rest

/-- `clean_property_data` (lines 160-173), producing the final table rows (the
`to_excel` call is an external file write).  `pd.concat` of an empty
collection raises `ValueError`; `df[cols]` raises `KeyError` when a requested
column exists in no row. -/
def clean_property_data (d2 : Dict2) (dt : String) : Except PyError (List Row) :=
  match d2.values with
  | [] => .error PyError.valueError
  | r :: rs =>
    let rows := (r :: rs).map cleanRow1
    if finalColumns.all (fun c => (unionKeys rows).contains c) then
      .ok (dedupKeepFirst []
        (rows.map (fun row => (project finalColumns row).set "date" (Value.str dt))))
    else .error PyError.keyError

/-! ### The detail fetch retry loop (`request_listing_data`, lines 101-119) -/

/-- The names in scope inside the retry loop of `request_listing_data`: the
locals of the function and the module-level imports and definitions.  `params`
is not among them — the block that defined it (lines 104-108) is commented
out in the source. -/
def requestScopeNames : List String :=
  ["listing", "dict1", "f", "i", "ln", "response", "e",
   "requests", "BeautifulSoup", "pd", "np", "sys", "time", "Timeout",
   "ConnectionError", "datetime", "json", "urllib3", "get_response",
   "get_page_listings", "request_listing_data", "parse_listing",
   "clean_property_data", "main"]

/-- One iteration of the `try` body (lines 110-113): evaluate the arguments of
`requests.get(ln, params=params)` — which raises `NameError` when `params` is
not in scope — then perform the GET (`net` is the network oracle), print the
status, and check the latitude marker (`split('"latitude": ')[1]`, an
`IndexError` when absent).  Returns the printed events and the outcome. -/
def attemptOnce (scope : List String) (net : Except PyError String) :
    List Event × Except PyError String :=
  if scope.contains "params" then
    match net with
    | .error e => ([], .error e)
    | .ok body =>
      match segAfter? body "\"latitude\": " with
      | none => ([Event.logStatus], .error PyError.indexError)
      | some _ => ([Event.logStatus], .ok body)
  else ([], .error PyError.nameError)

/-- The `while True` retry loop (lines 102-118): on any exception, print the
error and the URL, sleep 30 seconds, and try again; `break` only after a
successful attempt.  `fuel` bounds the unrolling of the unbounded source
loop; `k` indexes the attempts for the network oracle. -/
def requestLoop (scope : List String) (net : Nat → Except PyError String) (ln : String) :
    Nat → Nat → List Event × Option String
  | 0, _ => ([], none)
  | fuel + 1, k =>
    match attemptOnce scope (net k) with
    | (evs, .ok body) => (evs, some body)
    | (evs, .error e) =>
      let rest := requestLoop scope net ln fuel (k + 1)
      (evs ++ Event.logError e :: Event.logUrl ln :: Event.sleep 30 :: rest.1, rest.2)

/-! ### Orchestration (`get_page_listings` and `main`, lines 76-202) -/

/-- Lines 85-91: a transport (or any other) failure during the search-page
fetch is caught, logged, and turned into the `None` sentinel; otherwise the
`listings.regular` list is returned. -/
def getPageListings (resp : Except PyError (List ListingSummary)) :
    Option (List ListingSummary) :=
  match resp with
  | .error _ => none
  | .ok ls => some ls

/-- The page numbers `main` requests for one property type starting from
`start` (lines 186-198): request `start`; stop when the result is the `None`
sentinel or the empty list, otherwise continue with `start + 1`.  `fuel`
bounds the unrolling of the unbounded source loop. -/
def requestedPages (pages : String → Nat → Except PyError (List ListingSummary))
    (ptype : String) : Nat → Nat → List Nat
  | 0, _ => []
  | fuel + 1, start =>
    start ::
      match getPageListings (pages ptype start) with
      | none => []
      | some [] => []
      | some (_ :: _) => requestedPages pages ptype fuel (start + 1)

/-- Lines 193-197: the per-listing loop of one page.  `fetch` is the oracle
for the payload the (blocking) detail fetch eventually yields for a listing;
each listing's record is parsed and stored under its `listingId` in `dict2`.
An exception from `parse_listing` propagates (the loop is not wrapped). -/
def processPage (fetch : ListingSummary → DetailPayload) :
    List ListingSummary → Dict2 → Except PyError Dict2
  | [], d2 => .ok d2
  | l :: rest, d2 =>
    match parse_listing (fetch l) (initDict l) l with
    | .error e => .error e
    | .ok r => processPage fetch rest (d2.set l.listingId r)

/-- The `while True` pagination loop for one property type (lines 186-198). -/
def scrapeType (pages : String → Nat → Except PyError (List ListingSummary))
    (fetch : ListingSummary → DetailPayload) (ptype : String) :
    Nat → Nat → Dict2 → Except PyError Dict2
  | 0, _, d2 => .ok d2
  | fuel + 1, page, d2 =>
    match getPageListings (pages ptype page) with
    | none => .ok d2
    | some [] => .ok d2
    | some (l :: ls) =>
      match processPage fetch (l :: ls) d2 with
      | .error e => .error e
      | .ok d2' => scrapeType pages fetch ptype fuel (page + 1) d2'

/-- Line 181: the property types the script iterates over. -/
def property_types : List String :=
  ["farms_land", "semi_detached", "flats", "detached", "terraced", "bungalow", "park_home"]

/-- The outer loop of `main` over property types (lines 185-198). -/
def scrapeAll (pages : String → Nat → Except PyError (List ListingSummary))
    (fetch : ListingSummary → DetailPayload) (fuel : Nat) :
    List String → Dict2 → Except PyError Dict2
  | [], d2 => .ok d2
  | t :: ts, d2 =>
    match scrapeType pages fetch t fuel 1 d2 with
    | .error e => .error e
    | .ok d2' => scrapeAll pages fetch fuel ts d2'

/-- The body of `main`'s `try` block (lines 178-199): scrape everything, then
build the final table. -/
def mainModel (pages : String → Nat → Except PyError (List ListingSummary))
    (fetch : ListingSummary → DetailPayload) (fuel : Nat) (dt : String) :
    Except PyError (List Row) :=
  match scrapeAll pages fetch fuel property_types [] with
  | .error e => .error e
  | .ok d2 => clean_property_data d2 dt

/-- The names in scope in `main` when its `except` handler runs: `main`'s
locals and the module-level imports and definitions.  Neither
`send_discord_notification` (never defined or imported) nor `df` (local to
`clean_property_data`) is among them. -/
def mainScopeNames : List String :=
  ["dt", "property_types", "dict2", "property_type", "page_num", "listings",
   "listing", "response", "dict1", "e",
   "requests", "BeautifulSoup", "pd", "np", "sys", "time", "Timeout",
   "ConnectionError", "datetime", "json", "urllib3", "get_response",
   "get_page_listings", "request_listing_data", "parse_listing",
   "clean_property_data", "main"]

/-- `main`'s `except` handler (lines 200-202): `print(e)`, then the call
`send_discord_notification(df, e)`, which requires both names to be in scope;
a missing name raises `NameError` and no notification is sent. -/
def mainExceptHandler (scope : List String) (e : PyError) :
    List Event × Except PyError Unit :=
  if scope.contains "send_discord_notification" then
    if scope.contains "df" then ([Event.printErr e, Event.notify e], .ok ())
    else ([Event.printErr e], .error PyError.nameError)
  else ([Event.printErr e], .error PyError.nameError)

/-- `main` (lines 176-202): run the `try` body; on success the table has been
written, otherwise the `except` handler runs. -/
def mainRun (pages : String → Nat → Except PyError (List ListingSummary))
    (fetch : ListingSummary → DetailPayload) (fuel : Nat) (dt : String) :
    List Event × Except PyError Unit :=
  match mainModel pages fetch fuel dt with
  | .ok _ => ([], .ok ())
  | .error e => mainExceptHandler mainScopeNames e

/-- The accumulation of records into `dict2` over a run, as the sequence of
`dict2[listing['listingId']] = record` assignments (line 157) it performs. -/
def accumulate (ops : List (String × Dict)) : Dict2 :=
  ops.foldl (fun d p => d.set p.1 p.2) []

/-! ### Concrete scenario data -/

/-- A search item like the spec's end-to-end scenario: price `£250,000`,
address `SW1A 1AA, London`, bedroom/bathroom/reception feature tags. -/
def sampleListing : ListingSummary :=
  ⟨"L1", "£250,000", "SW1A 1AA, London",
   [("bed", "3"), ("bath", "2"), ("chair", "1")], "/details/1"⟩

/-- A detail body containing all the embedded markers the extractors look
for. -/
def sampleText : String :=
  "\"outcode\":\"SW1A\",\"incode\":\"1AA\",\"acornType\":12,\"propertyType\":\"flat\",\"latitude\": 51.5,\n\"longitude\": -0.14\n rest"

/-- A complete detail payload (markers present, features section present). -/
def samplePayload : DetailPayload := ⟨sampleText, some " A lovely flat. "⟩

/-- Fetch oracle: every listing resolves to the complete payload. -/
def sampleFetch : ListingSummary → DetailPayload := fun _ => samplePayload

/-- Page oracle: one page of one listing for `flats`, nothing anywhere else. -/
def samplePages : String → Nat → Except PyError (List ListingSummary) :=
  fun t n => if t = "flats" ∧ n = 1 then .ok [sampleListing] else .ok []

/-- A detail payload whose features/description section is missing. -/
def badPayload : DetailPayload := ⟨sampleText, none⟩

/-- A second listing whose detail page is the broken one. -/
def badListing : ListingSummary :=
  ⟨"L0", "£100,000", "E1 6AN, London", [("bed", "2"), ("bath", "1"), ("chair", "1")], "/details/0"⟩

/-- Fetch oracle for the two-listing scenario: `L0`'s detail page is missing
the features section, `L1`'s is complete. -/
def mixedFetch : ListingSummary → DetailPayload :=
  fun l => if l.listingId = "L0" then badPayload else samplePayload

/-- Page oracle: `flats` page 1 holds the broken listing first, then the good
one. -/
def mixedPages : String → Nat → Except PyError (List ListingSummary) :=
  fun t n => if t = "flats" ∧ n = 1 then .ok [badListing, sampleListing] else .ok []

/-- Page oracle with three non-empty pages for every property type. -/
def boundedPages : String → Nat → Except PyError (List ListingSummary) :=
  fun _ n => if n ≤ 2 then .ok [sampleListing] else .ok []

/-! ### C1 -/

/-- C1: for every detail payload in which the latitude/longitude markers are
missing or their values fail to parse as floating point, the extractor yields
empty latitude and longitude cells, which are not the numeric zero value. -/
theorem geo_absent_on_failure (text : String)
    (h : latStr? text = none
        ∨ (∃ s, latStr? text = some s ∧ parseDecimal? s = none)
        ∨ lonStr? text = none
        ∨ (∃ s, lonStr? text = some s ∧ parseDecimal? s = none)) :
    extractGeo text = (Value.str "", Value.str "")
      ∧ (extractGeo text).1 ≠ Value.float 0 ∧ (extractGeo text).2 ≠ Value.float 0 := by
  have hg : geoPair? text = none := by
    rcases h with h | ⟨s, hs, hp⟩ | h | ⟨s, hs, hp⟩
    · simp [geoPair?, h]
    · simp [geoPair?, hs, hp]
    · unfold geoPair?
      cases hl : latStr? text with
      | none => rfl
      | some ls =>
        cases hpl : parseDecimal? ls with
        | none => simp [hpl]
        | some la => simp [hpl, h]
    · unfold geoPair?
      cases hl : latStr? text with
      | none => rfl
      | some ls =>
        cases hpl : parseDecimal? ls with
        | none => simp [hpl]
        | some la => simp [hpl, hs, hp]
  have he : extractGeo text = (Value.str "", Value.str "") := by
    unfold extractGeo
    rw [hg]
  refine ⟨he, ?_, ?_⟩ <;> rw [he] <;> decide

/-- Witness for C1, at a payload with no geo markers at all. -/
theorem geo_absent_on_failure_witness :
    extractGeo "hello" = (Value.str "", Value.str "")
      ∧ (extractGeo "hello").1 ≠ Value.float 0 ∧ (extractGeo "hello").2 ≠ Value.float 0 :=
  geo_absent_on_failure "hello" (Or.inl rfl)

/-! ### C2 -/

theorem char_isDigit_ne (c : Char) (h : c.isDigit = true) :
    c ≠ '-' ∧ c ≠ '+' ∧ c ≠ '.' := by
  refine ⟨?_, ?_, ?_⟩ <;> intro h' <;> rw [h'] at h <;> exact absurd h (by decide)

theorem dropWhile_not_dot_of_digits :
    ∀ (cs : List Char), (∀ c ∈ cs, c.isDigit = true) →
      cs.dropWhile (fun c => c != '.') = [] := by
  intro cs
  induction cs with
  | nil => intro _; rfl
  | cons c rest ih =>
    intro h
    have hc : (c != '.') = true := by
      simp [bne]
      exact (char_isDigit_ne c (h c (List.mem_cons_self c rest))).2.2
    simp only [List.dropWhile_cons, hc, if_true]
    exact ih (fun x hx => h x (List.mem_cons_of_mem c hx))

theorem takeWhile_not_dot_of_digits :
    ∀ (cs : List Char), (∀ c ∈ cs, c.isDigit = true) →
      cs.takeWhile (fun c => c != '.') = cs := by
  intro cs
  induction cs with
  | nil => intro _; rfl
  | cons c rest ih =>
    intro h
    have hc : (c != '.') = true := by
      simp [bne]
      exact (char_isDigit_ne c (h c (List.mem_cons_self c rest))).2.2
    simp only [List.takeWhile_cons, hc, if_true]
    rw [ih (fun x hx => h x (List.mem_cons_of_mem c hx))]

theorem parsePos?_digits (cs : List Char) (hne : cs ≠ [])
    (hd : ∀ c ∈ cs, c.isDigit = true) :
    parsePos? cs = some ((digitsVal cs : Rat)) := by
  have hsplit : splitDot cs = (cs, none) := by
    unfold splitDot
    rw [dropWhile_not_dot_of_digits cs hd, takeWhile_not_dot_of_digits cs hd]
  have hdig : isDigits cs = true := by
    simp only [isDigits, Bool.and_eq_true, List.all_eq_true]
    refine ⟨?_, hd⟩
    simpa [List.isEmpty_iff] using hne
  unfold parsePos?
  rw [hsplit]
  simp [hdig]

theorem parseDecimal?_digits (cs : List Char) (hne : cs ≠ [])
    (hd : ∀ c ∈ cs, c.isDigit = true) :
    parseDecimal? (String.mk cs) = some ((digitsVal cs : Rat)) := by
  cases cs with
  | nil => exact absurd rfl hne
  | cons c rest =>
    have hc := char_isDigit_ne c (hd c (List.mem_cons_self c rest))
    show parseDecimalL? (c :: rest) = _
    simp only [parseDecimalL?]
    rw [if_neg hc.1, if_neg hc.2.1]
    exact parsePos?_digits (c :: rest) hne hd

theorem ratTrunc_natCast (n : Nat) : ratTrunc ((n : Rat)) = (n : Int) := by
  unfold ratTrunc
  rw [Rat.num_natCast, Rat.den_natCast]
  exact Int.tdiv_one _

/-- C2: price normalization strips currency symbols and thousands separators
(every `£` and `,`); a display price whose stripped form is a digit string
yields that integer, and an unparseable price string yields 0. -/
theorem price_normalization :
    (∀ s : String, isDigits (stripMoney s).data = true →
        normalizePrice s = ((digitsVal (stripMoney s).data : Int)))
    ∧ (∀ s : String, parseDecimal? (stripMoney s) = none → normalizePrice s = 0) := by
  constructor
  · intro s h
    have hne : (stripMoney s).data ≠ [] := by
      simp only [isDigits, Bool.and_eq_true] at h
      simpa [List.isEmpty_iff] using h.1
    have hd : ∀ c ∈ (stripMoney s).data, c.isDigit = true := by
      simp only [isDigits, Bool.and_eq_true, List.all_eq_true] at h
      intro c hc
      exact h.2 c hc
    have hp := parseDecimal?_digits (stripMoney s).data hne hd
    have hmk : String.mk (stripMoney s).data = stripMoney s := rfl
    rw [hmk] at hp
    unfold normalizePrice
    rw [hp]
    exact ratTrunc_natCast _
  · intro s h
    unfold normalizePrice
    rw [h]

/-- Witness for C2: `£350,000` normalizes to 350000 and `POA` to 0. -/
theorem price_normalization_witness :
    normalizePrice "£350,000" = 350000 ∧ normalizePrice "POA" = 0 :=
  ⟨(price_normalization.1 "£350,000" (by decide)).trans (by decide),
   price_normalization.2 "POA" rfl⟩

/-! ### C3 and C8 -/

theorem assembleRecord_fields (resp : DetailPayload) (dict1 : Dict)
    (listing : ListingSummary) (sec ptype : String) :
    (assembleRecord resp dict1 listing sec ptype).find? "postcode"
        = some (Value.str (extractPostcode resp.text).1)
    ∧ (assembleRecord resp dict1 listing sec ptype).find? "postcode_district"
        = some (Value.str (extractPostcode resp.text).2.1)
    ∧ (assembleRecord resp dict1 listing sec ptype).find? "outcode"
        = some (Value.str (extractPostcode resp.text).2.2)
    ∧ (assembleRecord resp dict1 listing sec ptype).find? "display_address"
        = some (Value.str (pyReplaceS listing.address (extractPostcode resp.text).1
            (extractPostcode resp.text).2.2)) := by
  unfold assembleRecord
  refine ⟨?_, ?_, ?_, ?_⟩ <;> simp [Assoc.find?_set]

theorem parse_listing_ok (resp : DetailPayload) (dict1 : Dict)
    (listing : ListingSummary) (sec ptype : String)
    (hsec : resp.featuresSection? = some sec)
    (hpt : propertyType? resp.text = some ptype) :
    parse_listing resp dict1 listing = .ok (assembleRecord resp dict1 listing sec ptype) := by
  unfold parse_listing
  rw [hsec, hpt]

/-- C3: whenever both the incode and the outcode markers are present in the
payload, the record's full postcode is `outcode + " " + district`; whenever
either is absent, all three derived postcode fields are empty strings and the
listing still parses without an error (given the rest of the payload is
well-formed). -/
theorem postcode_derivation (resp : DetailPayload) (dict1 : Dict)
    (listing : ListingSummary) (sec ptype : String)
    (hsec : resp.featuresSection? = some sec)
    (hpt : propertyType? resp.text = some ptype) :
    (∀ district oc, incode? resp.text = some district → outcode? resp.text = some oc →
      ∃ r, parse_listing resp dict1 listing = .ok r
        ∧ r.find? "postcode" = some (Value.str (oc ++ " " ++ district))
        ∧ r.find? "postcode_district" = some (Value.str district)
        ∧ r.find? "outcode" = some (Value.str oc))
    ∧ ((incode? resp.text = none ∨ outcode? resp.text = none) →
      ∃ r, parse_listing resp dict1 listing = .ok r
        ∧ r.find? "postcode" = some (Value.str "")
        ∧ r.find? "postcode_district" = some (Value.str "")
        ∧ r.find? "outcode" = some (Value.str "")) := by
  have hpl := parse_listing_ok resp dict1 listing sec ptype hsec hpt
  have hf := assembleRecord_fields resp dict1 listing sec ptype
  constructor
  · intro district oc hin hout
    have hpc : extractPostcode resp.text = (oc ++ " " ++ district, district, oc) := by
      unfold extractPostcode
      rw [hin, hout]
    refine ⟨assembleRecord resp dict1 listing sec ptype, hpl, ?_, ?_, ?_⟩
    · rw [hf.1, hpc]
    · rw [hf.2.1, hpc]
    · rw [hf.2.2.1, hpc]
  · intro h
    have hpc : extractPostcode resp.text = ("", "", "") := by
      unfold extractPostcode
      rcases h with h | h
      · rw [h]
      · cases hin : incode? resp.text with
        | none => rfl
        | some d => rw [h]
    refine ⟨assembleRecord resp dict1 listing sec ptype, hpl, ?_, ?_, ?_⟩
    · rw [hf.1, hpc]
    · rw [hf.2.1, hpc]
    · rw [hf.2.2.1, hpc]

/-- Witness for C3, on the complete sample payload: incode `1AA` and outcode
`SW1A` produce the full postcode `SW1A 1AA`. -/
theorem postcode_derivation_witness :
    ∃ r, parse_listing samplePayload [] sampleListing = .ok r
      ∧ r.find? "postcode" = some (Value.str "SW1A 1AA")
      ∧ r.find? "postcode_district" = some (Value.str "1AA")
      ∧ r.find? "outcode" = some (Value.str "SW1A") := by
  obtain ⟨r, h1, h2, h3, h4⟩ :=
    (postcode_derivation samplePayload [] sampleListing " A lovely flat. " "flat"
      rfl rfl).1 "1AA" "SW1A" rfl rfl
  exact ⟨r, h1, by rw [h2]; decide, h3, h4⟩

/-- C8: the record's display address is the search item's address with the
full postcode substring (`outcode + " " + incode`) replaced by just the
outcode, Python-`replace` style. -/
theorem address_redaction (resp : DetailPayload) (dict1 : Dict)
    (listing : ListingSummary) (sec ptype district oc : String)
    (hsec : resp.featuresSection? = some sec)
    (hpt : propertyType? resp.text = some ptype)
    (hin : incode? resp.text = some district)
    (hout : outcode? resp.text = some oc) :
    ∃ r, parse_listing resp dict1 listing = .ok r
      ∧ r.find? "display_address"
          = some (Value.str (pyReplaceS listing.address (oc ++ " " ++ district) oc)) := by
  have hpl := parse_listing_ok resp dict1 listing sec ptype hsec hpt
  have hf := assembleRecord_fields resp dict1 listing sec ptype
  have hpc : extractPostcode resp.text = (oc ++ " " ++ district, district, oc) := by
    unfold extractPostcode
    rw [hin, hout]
  refine ⟨assembleRecord resp dict1 listing sec ptype, hpl, ?_⟩
  rw [hf.2.2.2, hpc]

/-- Witness for C8: address `SW1A 1AA, London` with postcode `SW1A 1AA` and
outcode `SW1A` yields display address `SW1A, London`. -/
theorem address_redaction_witness :
    ∃ r, parse_listing samplePayload [] sampleListing = .ok r
      ∧ r.find? "display_address" = some (Value.str "SW1A, London") := by
  obtain ⟨r, h1, h2⟩ :=
    address_redaction samplePayload [] sampleListing " A lovely flat. " "flat"
      "1AA" "SW1A" rfl rfl rfl rfl
  exact ⟨r, h1, by rw [h2]; decide⟩

/-! ### C4 -/

/-- C4 counterexample: with the broken listing first on the page, the whole
run errors out with the `AttributeError` — the second (well-formed) listing
is never processed and no table is built — although the second listing on its
own processes fine. -/
theorem description_failure_aborts_run_counterexample :
    mainModel mixedPages mixedFetch 3 "2024-01-01" = .error PyError.attributeError
    ∧ (processPage mixedFetch [sampleListing] []).toOption.isSome = true := ⟨rfl, rfl⟩

/-- C4 (amended): a missing description-section marker is an uncaught hard
failure of `parse_listing` that propagates out of the per-listing loop: the
remaining listings of the page are not processed and the exception escapes to
`main`'s top-level handler. -/
theorem description_failure_propagates (fetch : ListingSummary → DetailPayload)
    (l : ListingSummary) (rest : List ListingSummary) (d2 : Dict2)
    (h : (fetch l).featuresSection? = none) :
    processPage fetch (l :: rest) d2 = .error PyError.attributeError := by
  unfold processPage parse_listing
  rw [h]

/-- Witness for C4's amended theorem: the two-listing page aborts at the first
listing. -/
theorem description_failure_propagates_witness :
    processPage mixedFetch [badListing, sampleListing] [] = .error PyError.attributeError :=
  description_failure_propagates mixedFetch badListing [sampleListing] [] rfl

/-! ### C6 -/

/-- C6 counterexample: in the end-to-end run the final row's `num_beds` value
for a listing with feature `("bed", "3")` is the *string* `"3"`, not the
integer 3. -/
theorem feature_count_integer_counterexample :
    (((mainModel samplePages sampleFetch 3 "2024-01-01").toOption.bind
        (fun rows => rows.head?)).bind (fun row => row.find? "num_beds"))
      = some (Value.str "3")
    ∧ (((mainModel samplePages sampleFetch 3 "2024-01-01").toOption.bind
        (fun rows => rows.head?)).bind (fun row => row.find? "num_beds"))
      ≠ some (Value.int 3) := ⟨rfl, by decide⟩

/-- C6 (amended): the bedroom/bathroom/reception feature contents are carried
through to the final table verbatim as strings under the renamed columns
`num_beds`/`num_baths`/`num_recepts`; no integer conversion is applied. -/
theorem feature_remap_keeps_strings :
    (((mainModel samplePages sampleFetch 3 "2024-01-01").toOption.bind
        (fun rows => rows.head?)).bind (fun row => row.find? "num_beds"))
      = some (Value.str "3")
    ∧ (((mainModel samplePages sampleFetch 3 "2024-01-01").toOption.bind
        (fun rows => rows.head?)).bind (fun row => row.find? "num_baths"))
      = some (Value.str "2")
    ∧ (((mainModel samplePages sampleFetch 3 "2024-01-01").toOption.bind
        (fun rows => rows.head?)).bind (fun row => row.find? "num_recepts"))
      = some (Value.str "1") := ⟨rfl, rfl, rfl⟩

/-! ### C5 -/

/-- C5: every iteration of the detail-fetch retry loop raises `NameError`
while evaluating `params` (whose definition is commented out) before any
request is issued, regardless of the network's behaviour; each iteration
logs the error and the URL and sleeps 30 seconds, and the loop never
produces a response. -/
theorem request_loop_name_error (net : Nat → Except PyError String) (ln : String)
    (fuel k : Nat) :
    (requestLoop requestScopeNames net ln fuel k).2 = none
    ∧ (requestLoop requestScopeNames net ln fuel k).1 =
        (List.replicate fuel
          [Event.logError PyError.nameError, Event.logUrl ln, Event.sleep 30]).flatten := by
  induction fuel generalizing k with
  | zero => exact ⟨rfl, rfl⟩
  | succ n ih =>
    have ha : attemptOnce requestScopeNames (net k) = ([], .error PyError.nameError) := rfl
    have h2 := (ih (k + 1)).1
    have h1 := (ih (k + 1)).2
    constructor
    · show (requestLoop requestScopeNames net ln (n + 1) k).2 = none
      unfold requestLoop
      rw [ha]
      exact h2
    · show (requestLoop requestScopeNames net ln (n + 1) k).1 = _
      unfold requestLoop
      rw [ha]
      simp only [List.replicate_succ, List.flatten_cons]
      rw [h1]
      rfl

/-! ### C7 -/

theorem requested_pages_before_nonempty
    (pages : String → Nat → Except PyError (List ListingSummary)) (ptype : String) :
    ∀ fuel start q, q ∈ requestedPages pages ptype fuel start →
      ∀ r, start ≤ r → r < q →
        ¬(getPageListings (pages ptype r) = none
          ∨ getPageListings (pages ptype r) = some []) := by
  intro fuel
  induction fuel with
  | zero =>
    intro start q hq
    simp [requestedPages] at hq
  | succ n ih =>
    intro start q hq r hsr hrq
    unfold requestedPages at hq
    rcases List.mem_cons.mp hq with rfl | hq'
    · omega
    · cases hg : getPageListings (pages ptype start) with
      | none => rw [hg] at hq'; simp at hq'
      | some ls =>
        cases ls with
        | nil => rw [hg] at hq'; simp at hq'
        | cons l ls' =>
          rw [hg] at hq'
          rcases Nat.lt_or_ge r (start + 1) with hr | hr
          · have hre : r = start := by omega
            subst hre
            intro hcontra
            rcases hcontra with h | h
            · rw [hg] at h; cases h
            · rw [hg] at h; simp at h
          · exact ih (start + 1) q hq' r hr hrq

/-- C7: once the search-page fetch for some page of a property type yields the
no-listings sentinel (a transport failure) or an empty listing list, no
higher page number is ever requested for that property type. -/
theorem pagination_stops_on_empty
    (pages : String → Nat → Except PyError (List ListingSummary)) (ptype : String)
    (fuel p q : Nat) (hp : 1 ≤ p) (hpq : p < q)
    (he : getPageListings (pages ptype p) = none
        ∨ getPageListings (pages ptype p) = some []) :
    q ∉ requestedPages pages ptype fuel 1 := by
  intro hq
  exact requested_pages_before_nonempty pages ptype fuel 1 q hq p hp hpq he

/-- Witness for C7: with pages 1-2 non-empty and page 3 empty, page 4 is never
requested. -/
theorem pagination_stops_on_empty_witness :
    4 ∉ requestedPages boundedPages "flats" 10 1 :=
  pagination_stops_on_empty boundedPages "flats" 10 3 4 (by decide) (by decide) (Or.inr rfl)

/-! ### C9 -/

/-- C9: any exception escaping the main loop is printed, but the notification
call then raises `NameError` (neither `send_discord_notification` nor `df` is
in scope), so no notification is ever sent. -/
theorem main_handler_name_error :
    (∀ e : PyError,
      mainExceptHandler mainScopeNames e = ([Event.printErr e], .error PyError.nameError))
    ∧ (∀ (pages : String → Nat → Except PyError (List ListingSummary))
        (fetch : ListingSummary → DetailPayload) (fuel : Nat) (dt : String) (e : PyError),
        mainModel pages fetch fuel dt = .error e →
        mainRun pages fetch fuel dt = ([Event.printErr e], .error PyError.nameError)) := by
  constructor
  · intro e
    rfl
  · intro pages fetch fuel dt e h
    unfold mainRun
    rw [h]
    rfl

/-- Witness for C9: the run that aborts on the broken listing prints the
`AttributeError` and then dies with `NameError` instead of notifying. -/
theorem main_handler_name_error_witness :
    mainRun mixedPages mixedFetch 3 "2024-01-01"
      = ([Event.printErr PyError.attributeError], .error PyError.nameError) :=
  main_handler_name_error.2 mixedPages mixedFetch 3 "2024-01-01" PyError.attributeError rfl

/-! ### C10 -/

theorem list_find?_or_append {α : Type} (l₁ l₂ : List α) (p : α → Bool) :
    (l₁ ++ l₂).find? p = (l₁.find? p).or (l₂.find? p) :=
  List.find?_append

theorem accumulate_find (ops : List (String × Dict)) :
    ∀ (acc : Dict2) (k : String),
      (ops.foldl (fun d p => d.set p.1 p.2) acc).find? k
        = ((ops.reverse.find? (fun p => p.1 == k)).map Prod.snd).or (acc.find? k) := by
  induction ops with
  | nil =>
    intro acc k
    simp [Option.none_or]
  | cons p rest ih =>
    intro acc k
    obtain ⟨i, v⟩ := p
    simp only [List.foldl_cons, List.reverse_cons]
    rw [ih, list_find?_or_append]
    cases hf : rest.reverse.find? (fun q => q.1 == k) with
    | some x => simp [Option.or]
    | none =>
      simp only [Option.map, Option.none_or]
      rw [Assoc.find?_set]
      by_cases hik : i = k
      · subst hik
        simp [List.find?, Option.or]
      · have hbeq : (((i, v) : String × Dict).1 == k) = false := by
          simp [hik]
        simp [List.find?, hbeq, Option.none_or, Ne.symm hik]

/-- C10: the run-wide accumulator holds at most one record per listing id —
its keys stay pairwise distinct through any sequence of page processings —
and after any sequence of `dict2[listingId] = record` assignments the record
surviving for an id is the most recent one assigned to it. -/
theorem dataset_dedup_by_id :
    (∀ (fetch : ListingSummary → DetailPayload) (ls : List ListingSummary)
        (d2 d2' : Dict2),
        d2.keys.Nodup → processPage fetch ls d2 = .ok d2' → d2'.keys.Nodup)
    ∧ (∀ (ops : List (String × Dict)) (k : String),
        (accumulate ops).find? k = (ops.reverse.find? (fun p => p.1 == k)).map Prod.snd) := by
  constructor
  · intro fetch ls
    induction ls with
    | nil =>
      intro d2 d2' h hp
      cases hp
      exact h
    | cons l rest ih =>
      intro d2 d2' h hp
      unfold processPage at hp
      cases hpl : parse_listing (fetch l) (initDict l) l with
      | error e => rw [hpl] at hp; cases hp
      | ok r =>
        rw [hpl] at hp
        exact ih (d2.set l.listingId r) d2' (Assoc.keys_set_nodup d2 l.listingId r h) hp
  · intro ops k
    have h := accumulate_find ops [] k
    rw [show Assoc.find? ([] : Dict2) k = none from rfl, Option.or_none] at h
    exact h

/-- Witness for C10: a page processed from an empty accumulator has distinct
keys, and re-assigning an id keeps only the latest record. -/
theorem dataset_dedup_by_id_witness :
    (match processPage sampleFetch [sampleListing] [] with
      | .ok d2 => d2.keys.Nodup
      | .error _ => False)
    ∧ (accumulate [("L1", ([] : Dict)), ("L1", [("x", Value.absent)])]).find? "L1"
        = some [("x", Value.absent)] := by
  constructor
  · exact dataset_dedup_by_id.1 sampleFetch [sampleListing] [] _ List.nodup_nil rfl
  · exact (dataset_dedup_by_id.2 [("L1", ([] : Dict)), ("L1", [("x", Value.absent)])] "L1").trans rfl

end Zoopla
